import Mathlib

/-!
Verification of the read-aloud-mcp repository (src/src/mcp_tts_server).

The Python code is shallowly embedded as pure Lean functions.  External,
opaque capabilities (the pyttsx4 synthesis engine, the pygame audio
subsystem, the filesystem, the wall clock) are modelled by an `Env` record
of oracles: each call that may raise a Python exception is an
`Except String _` value whose `String` is the exception's message
(Python's `str(e)`).  Every embedded operation returns, besides its
Python return value, the updated `TTSHandler` state and a trace of the
external calls it performed, so that claims such as "creates no file" or
"performs no playback" become statements about the trace.
-/

/-- A Python `datetime.datetime` value, as produced by `datetime.now()`. -/
structure PyDateTime where
  year : Nat
  month : Nat
  day : Nat
  hour : Nat
  minute : Nat
  second : Nat
  microsecond : Nat
  deriving DecidableEq

/-- The decimal digit character for `n % 10`. -/
def digitChar (n : Nat) : Char := Char.ofNat (48 + n % 10)

/-- Fixed-width zero-padded decimal rendering, exactly `w` digits (the last
`w` decimal digits of `n`); for `n < 10^w` this is strftime's zero-padded
field rendering. -/
def padDec : Nat → Nat → List Char
  | 0, _ => []
  | w + 1, n => padDec w (n / 10) ++ [digitChar n]

/-- The part of `strftime("%Y-%m-%d_%H-%M-%S-%f")` before the microsecond
field, separators included. -/
def timestampSep (dt : PyDateTime) : List Char :=
  padDec 4 dt.year ++ ['-'] ++ padDec 2 dt.month ++ ['-'] ++ padDec 2 dt.day
    ++ ['_'] ++ padDec 2 dt.hour ++ ['-'] ++ padDec 2 dt.minute ++ ['-']
    ++ padDec 2 dt.second ++ ['-']

/-- `now.strftime("%Y-%m-%d_%H-%M-%S-%f")` from
`TTSHandler._generate_timestamp_filename` (tts_handler.py line 53):
the `%f` field is the 6-digit zero-padded microsecond. -/
def strftimeChars (dt : PyDateTime) : List Char :=
  timestampSep dt ++ padDec 6 dt.microsecond

/-- The millisecond-resolution timestamp shape `YYYY-MM-DD_HH-MM-SS-mmm`
that the spec names: the strftime output with `%f` cut down to the leading
three digits, i.e. the millisecond `microsecond / 1000`. -/
def timestampPatternChars (dt : PyDateTime) : List Char :=
  timestampSep dt ++ padDec 3 (dt.microsecond / 1000)

/-- `TTSHandler._generate_timestamp_filename` (tts_handler.py lines 50-56):
format the current time, drop the last 3 characters (Python `[:-3]`,
turning the 6-digit microseconds into 3-digit milliseconds), append
`.wav`. -/
def generate_timestamp_filename (dt : PyDateTime) : String :=
  String.mk ((strftimeChars dt).dropLast.dropLast.dropLast) ++ ".wav"

/-- Python `str.isspace` on the ASCII whitespace characters stripped by
`str.strip()`. -/
def isPySpace (c : Char) : Bool :=
  c = ' ' || c = '\t' || c = '\n' || c = '\r' || c = '\x0b' || c = '\x0c'

/-- Python `text.strip()`: remove leading and trailing whitespace. -/
def pyStrip (s : String) : String :=
  String.mk (((s.data.dropWhile isPySpace).reverse.dropWhile isPySpace).reverse)

/-- Python `pathlib.Path.name`: the final path component after the last
slash. -/
def pathName (p : String) : String :=
  String.mk ((p.data.reverse.takeWhile (fun c => c != '/')).reverse)

/-- A raised Python exception, by class and message (`str(e)`). -/
inductive PyErr where
  | valueError (m : String)
  | fileNotFoundError (m : String)
  | runtimeError (m : String)
  | raised (m : String)
  deriving DecidableEq

/-- `str(e)`: the message carried by the exception. -/
def PyErr.msg : PyErr → String
  | .valueError m => m
  | .fileNotFoundError m => m
  | .runtimeError m => m
  | .raised m => m

/-- One observable call to an external capability (engine, audio
subsystem, filesystem). -/
inductive Event where
  | mkdirOutput (dir : String)
  | engineInit
  | setRate (e : Nat)
  | saveToFile (e : Nat) (text path : String)
  | runAndWait (e : Nat)
  | mixerInit
  | soundLoad (path : String)
  | soundPlay (path : String)
  | engineStop (e : Nat)
  | mixerQuit
  deriving DecidableEq

/-- The external world: one oracle per call that can raise.  An
`Except.error m` means the call raises an exception whose `str` is `m`;
engine handles produced by `pyttsx4.init()` are identified by a `Nat`. -/
structure Env where
  now : PyDateTime
  engineInitR : Except String Nat
  setRateR : Nat → Except String Unit
  saveToFileR : Nat → String → String → Except String Unit
  runAndWaitR : Nat → Except String Unit
  fileExists : String → Bool
  mixerInitR : Except String Unit
  soundLoadR : String → Except String Unit
  soundPlayR : String → Except String Unit
  engineStopR : Nat → Except String Unit
  mixerQuitR : Except String Unit

/-- The mutable state of one `TTSHandler` instance
(tts_handler.py lines 15-20). -/
structure TTSHandler where
  output_dir : String
  tts_engine : Option Nat
  pygame_initialized : Bool
  deriving DecidableEq

/-- `TTSHandler.__init__(output_dir)` (tts_handler.py lines 15-20):
creates the output directory (mkdir with exist_ok), no engine handle, no
audio subsystem. -/
def TTSHandler.createWith (output_dir : String) : TTSHandler × List Event :=
  (⟨output_dir, none, false⟩, [.mkdirOutput output_dir])

/-- `TTSHandler()` with the default `output_dir="audio_outputs"`. -/
def TTSHandler.create : TTSHandler × List Event :=
  TTSHandler.createWith "audio_outputs"

/-- `TTSHandler._get_tts_engine` (tts_handler.py lines 39-48): lazily
initialize the engine; setting the speech rate is wrapped in
`contextlib.suppress(Exception)`, so both outcomes of `setRateR` give the
same result. -/
def TTSHandler.get_tts_engine (env : Env) (h : TTSHandler) :
    Except PyErr Nat × TTSHandler × List Event :=
  match h.tts_engine with
  | some e => (.ok e, h, [])
  | none =>
    match env.engineInitR with
    | .error m => (.error (.raised m), h, [.engineInit])
    | .ok e =>
      match env.setRateR e with
      | .error _ => (.ok e, { h with tts_engine := some e }, [.engineInit, .setRate e])
      | .ok _ => (.ok e, { h with tts_engine := some e }, [.engineInit, .setRate e])

/-- `TTSHandler.generate_speech` (tts_handler.py lines 58-71): reject
empty-after-strip text with `ValueError("Text cannot be empty")`, else
acquire the engine, compute the timestamped output path, and run
`save_to_file` then `runAndWait`, each of which may raise. -/
def TTSHandler.generate_speech (env : Env) (h : TTSHandler) (text : String) :
    Except PyErr String × TTSHandler × List Event :=
  if pyStrip text = "" then
    (.error (.valueError "Text cannot be empty"), h, [])
  else
    match TTSHandler.get_tts_engine env h with
    | (.error e, h1, tr) => (.error e, h1, tr)
    | (.ok eng, h1, tr) =>
      let filename := generate_timestamp_filename env.now
      let output_path := h1.output_dir ++ "/" ++ filename
      match env.saveToFileR eng text output_path with
      | .error m => (.error (.raised m), h1, tr ++ [.saveToFile eng text output_path])
      | .ok _ =>
        match env.runAndWaitR eng with
        | .error m =>
          (.error (.raised m), h1, tr ++ [.saveToFile eng text output_path, .runAndWait eng])
        | .ok _ =>
          (.ok output_path, h1, tr ++ [.saveToFile eng text output_path, .runAndWait eng])

/-- The body of the try block of `TTSHandler.play_audio_file` after the
mixer is up (tts_handler.py lines 84-91): load the sound, play it and wait
for completion; any exception is wrapped into
`RuntimeError(f"Failed to play audio: {e}")`. -/
def playTryBody (env : Env) (h : TTSHandler) (file_path : String) (tr : List Event) :
    Except PyErr Unit × TTSHandler × List Event :=
  match env.soundLoadR file_path with
  | .error m =>
    (.error (.runtimeError ("Failed to play audio: " ++ m)), h, tr ++ [.soundLoad file_path])
  | .ok _ =>
    match env.soundPlayR file_path with
    | .error m =>
      (.error (.runtimeError ("Failed to play audio: " ++ m)), h,
        tr ++ [.soundLoad file_path, .soundPlay file_path])
    | .ok _ => (.ok (), h, tr ++ [.soundLoad file_path, .soundPlay file_path])

/-- `TTSHandler.play_audio_file` (tts_handler.py lines 73-94): raise
`FileNotFoundError` if the path does not exist; otherwise initialize the
pygame mixer on first use and play, wrapping any exception of the try
block into a `RuntimeError`. -/
def TTSHandler.play_audio_file (env : Env) (h : TTSHandler) (file_path : String) :
    Except PyErr Unit × TTSHandler × List Event :=
  if env.fileExists file_path = false then
    (.error (.fileNotFoundError ("Audio file not found: " ++ file_path)), h, [])
  else
    if h.pygame_initialized = false then
      match env.mixerInitR with
      | .error m => (.error (.runtimeError ("Failed to play audio: " ++ m)), h, [.mixerInit])
      | .ok _ => playTryBody env { h with pygame_initialized := true } file_path [.mixerInit]
    else
      playTryBody env h file_path []

/-- `TTSHandler.read_aloud` (tts_handler.py lines 96-108): generate then
play, catching every exception and turning it into an error string. -/
def TTSHandler.read_aloud (env : Env) (h : TTSHandler) (text : String) :
    String × TTSHandler × List Event :=
  match TTSHandler.generate_speech env h text with
  | (.error e, h1, tr) => ("Error processing text-to-speech: " ++ PyErr.msg e, h1, tr)
  | (.ok audio_path, h1, tr) =>
    match TTSHandler.play_audio_file env h1 audio_path with
    | (.error e, h2, tr2) => ("Error processing text-to-speech: " ++ PyErr.msg e, h2, tr ++ tr2)
    | (.ok _, h2, tr2) =>
      ("Successfully generated and played audio: " ++ pathName audio_path, h2, tr ++ tr2)

/-- `TTSHandler.cleanup` (tts_handler.py lines 26-37): stop and drop the
engine handle, quit the mixer; each step is wrapped in
`contextlib.suppress(Exception)`, so both outcomes of each oracle give the
same result, and the fields are reset regardless. -/
def TTSHandler.cleanup (env : Env) (h : TTSHandler) : TTSHandler × List Event :=
  let step1 : TTSHandler × List Event :=
    match h.tts_engine with
    | none => (h, [])
    | some e =>
      match env.engineStopR e with
      | .error _ => ({ h with tts_engine := none }, [.engineStop e])
      | .ok _ => ({ h with tts_engine := none }, [.engineStop e])
  if step1.1.pygame_initialized then
    match env.mixerQuitR with
    | .error _ => ({ step1.1 with pygame_initialized := false }, step1.2 ++ [.mixerQuit])
    | .ok _ => ({ step1.1 with pygame_initialized := false }, step1.2 ++ [.mixerQuit])
  else
    (step1.1, step1.2)

/-- A JSON-style argument value, as received by the tool adapter.  Only
`jstr` passes the `isinstance(text, str)` check; every other kind is
rejected the same way, so non-string kinds beyond these behave like
`jnum`. -/
inductive JVal where
  | jstr (s : String)
  | jnum (n : Int)
  | jbool (b : Bool)
  | jnull
  deriving DecidableEq

/-- `handle_call_tool` (server.py lines 40-59): reject an unknown tool
name first, then a missing or empty `arguments` dict, then a missing
`text` key, then a non-string `text` value; only then offload
`tts_handler.read_aloud(text)` to the worker.  The arguments dict is an
association list (Python dicts have unique keys).  A `.error m` result is
the `ValueError(m)` the handler raises at the boundary; `.ok r` is the
text content produced from the worker's result. -/
def handle_call_tool (env : Env) (h : TTSHandler) (name : String)
    (arguments : Option (List (String × JVal))) :
    Except String String × TTSHandler × List Event :=
  if name ≠ "read_aloud" then (.error ("Unknown tool: " ++ name), h, [])
  else
    match arguments with
    | none => (.error "Missing required argument: text", h, [])
    | some args =>
      if args.isEmpty then (.error "Missing required argument: text", h, [])
      else
        match args.lookup "text" with
        | none => (.error "Missing required argument: text", h, [])
        | some (.jstr t) =>
          match TTSHandler.read_aloud env h t with
          | (r, h1, tr) => (.ok r, h1, tr)
        | some _ => (.error "Argument \x27text\x27 must be a string", h, [])

/-- What the one-shot runner leaves behind: the lines it printed and the
process exit status. -/
structure OneshotResult where
  printed : List String
  exitCode : Nat
  deriving DecidableEq

/-- The `"Converting text to speech: ..."` line printed by `run_oneshot`
(server.py line 98), with the 50-character truncation. -/
def convLine (text : String) : String :=
  "Converting text to speech: " ++ String.mk (text.data.take 50)
    ++ (if 50 < text.data.length then "..." else "")

/-- `run_oneshot` (server.py lines 96-122): create a fresh handler; with
play enabled call `read_aloud` (which never raises, so this path always
prints a check-marked line and exits 0); with play disabled call
`generate_speech` directly, printing the saved filename on success and an
error line with exit status 1 when it raises; `cleanup` runs in the
`finally` block on every path. -/
def run_oneshot (env : Env) (text : String) (play_audio : Bool) :
    OneshotResult × TTSHandler × List Event :=
  let c := TTSHandler.createWith "audio_outputs"
  if play_audio then
    match TTSHandler.read_aloud env c.1 text with
    | (r, h1, tr) =>
      match TTSHandler.cleanup env h1 with
      | (h2, tr2) => (⟨[convLine text, "✓ " ++ r], 0⟩, h2, c.2 ++ tr ++ tr2)
  else
    match TTSHandler.generate_speech env c.1 text with
    | (.ok p, h1, tr) =>
      match TTSHandler.cleanup env h1 with
      | (h2, tr2) =>
        (⟨[convLine text, "✓ Audio saved to: " ++ pathName p], 0⟩, h2, c.2 ++ tr ++ tr2)
    | (.error e, h1, tr) =>
      match TTSHandler.cleanup env h1 with
      | (h2, tr2) =>
        (⟨[convLine text, "✗ Error: " ++ PyErr.msg e], 1⟩, h2, c.2 ++ tr ++ tr2)

/-- The parsed command-line options of `main` (server.py lines 77-86). -/
structure CliArgs where
  text : Option String
  no_play : Bool
  deriving DecidableEq

/-- The argparse defaults: no `--text`, `--no-play` unset. -/
def argparseDefaults : CliArgs := ⟨none, false⟩

/-- The argument parser built in `main` (server.py lines 64-86): exactly
two options are declared, `--text` taking one value and the flag
`--no-play`; any other token makes argparse fail with an
"unrecognized arguments" error (and exit status 2).  Modelled for plain
`--flag value` spellings; argparse extras such as `--flag=value`,
abbreviation and `-h` are out of scope of the claims. -/
def parse_args : List String → CliArgs → Except String CliArgs
  | [], acc => .ok acc
  | "--text" :: v :: rest, acc => parse_args rest { acc with text := some v }
  | ["--text"], _ => .error "argument --text: expected one argument"
  | "--no-play" :: rest, acc => parse_args rest { acc with no_play := true }
  | tok :: _, _ => .error ("unrecognized arguments: " ++ tok)

/-- A sample wall-clock instant for concrete runs. -/
def dtSample : PyDateTime := ⟨2026, 10, 12, 13, 45, 7, 123456⟩

/-- An environment in which every external call succeeds. -/
def envOK : Env where
  now := dtSample
  engineInitR := .ok 1
  setRateR := fun _ => .ok ()
  saveToFileR := fun _ _ _ => .ok ()
  runAndWaitR := fun _ => .ok ()
  fileExists := fun _ => true
  mixerInitR := .ok ()
  soundLoadR := fun _ => .ok ()
  soundPlayR := fun _ => .ok ()
  engineStopR := fun _ => .ok ()
  mixerQuitR := .ok ()

/-- A fresh handler with the default output directory. -/
def hFresh : TTSHandler := ⟨"audio_outputs", none, false⟩

theorem padDec_succ (w n : Nat) : padDec (w + 1) n = padDec w (n / 10) ++ [digitChar n] := rfl

theorem dropLast_append_padDec_succ (A : List Char) (w n : Nat) :
    (A ++ padDec (w + 1) n).dropLast = A ++ padDec w (n / 10) := by
  rw [padDec_succ, ← List.append_assoc, List.dropLast_concat]

/-- Dropping the last three characters of a string ending in a 6-digit
zero-padded field leaves the same string ending in the 3-digit zero-padded
quotient by 1000. -/
theorem dropLast3_append_padDec6 (A : List Char) (n : Nat) :
    ((A ++ padDec 6 n).dropLast.dropLast.dropLast) = A ++ padDec 3 (n / 1000) := by
  rw [show (6 : Nat) = 5 + 1 from rfl, dropLast_append_padDec_succ A 5 n,
    show (5 : Nat) = 4 + 1 from rfl, dropLast_append_padDec_succ A 4 (n / 10),
    show (4 : Nat) = 3 + 1 from rfl, dropLast_append_padDec_succ A 3 (n / 10 / 10)]
  rw [Nat.div_div_eq_div_mul, Nat.div_div_eq_div_mul]

/-- The generated filename is exactly the millisecond-resolution timestamp
pattern followed by the `.wav` extension. -/
theorem generate_timestamp_filename_pattern (dt : PyDateTime) :
    generate_timestamp_filename dt = String.mk (timestampPatternChars dt) ++ ".wav" := by
  unfold generate_timestamp_filename strftimeChars timestampPatternChars
  rw [dropLast3_append_padDec6]

/-- Once the handle exists, `_get_tts_engine` returns it unchanged, with
no external call. -/
theorem get_tts_engine_some (env : Env) (h : TTSHandler) (e : Nat)
    (he : h.tts_engine = some e) :
    TTSHandler.get_tts_engine env h = (.ok e, h, []) := by
  unfold TTSHandler.get_tts_engine
  rw [he]

/-- First acquisition: when no handle exists and `pyttsx4.init()` returns
`e`, the handle is stored and returned, whatever the outcome of the
best-effort rate configuration. -/
theorem get_tts_engine_none_ok (env : Env) (h : TTSHandler) (e : Nat)
    (hn : h.tts_engine = none) (hi : env.engineInitR = .ok e) :
    TTSHandler.get_tts_engine env h =
      (.ok e, { h with tts_engine := some e }, [.engineInit, .setRate e]) := by
  simp only [TTSHandler.get_tts_engine, hn, hi]
  cases hr : env.setRateR e <;> simp

/-- First acquisition failure: `pyttsx4.init()` raising leaves the state
unchanged. -/
theorem get_tts_engine_none_err (env : Env) (h : TTSHandler) (m : String)
    (hn : h.tts_engine = none) (hi : env.engineInitR = .error m) :
    TTSHandler.get_tts_engine env h = (.error (.raised m), h, [.engineInit]) := by
  unfold TTSHandler.get_tts_engine
  rw [hn, hi]

/-- `_get_tts_engine` never touches the output directory. -/
theorem get_tts_engine_output_dir (env : Env) (h : TTSHandler) :
    (TTSHandler.get_tts_engine env h).2.1.output_dir = h.output_dir := by
  unfold TTSHandler.get_tts_engine
  cases hte : h.tts_engine with
  | some e => rfl
  | none =>
    simp only [hte]
    cases hi : env.engineInitR with
    | error m => rfl
    | ok e =>
      simp only
      cases hr : env.setRateR e <;> simp

/-- Consequence of cleanup: fully evaluated form, showing it never raises
(it is total), resets both resource fields whatever the teardown oracles
do, and records exactly the release calls for the resources present. -/
theorem cleanup_eq (env : Env) (od : String) (te : Option Nat) (pg : Bool) :
    TTSHandler.cleanup env ⟨od, te, pg⟩ =
      (⟨od, none, false⟩,
        (match te with | none => ([] : List Event) | some e => [Event.engineStop e])
          ++ (if pg then [Event.mixerQuit] else [])) := by
  cases te with
  | none =>
    cases pg with
    | false => rfl
    | true =>
      simp only [TTSHandler.cleanup]
      cases env.mixerQuitR <;> rfl
  | some e =>
    simp only [TTSHandler.cleanup]
    cases env.engineStopR e <;> cases pg
    case some.error.true => cases env.mixerQuitR <;> rfl
    case some.ok.true => cases env.mixerQuitR <;> rfl
    case some.error.false => rfl
    case some.ok.false => rfl

/-- C2: for every string that is empty or whitespace-only after stripping,
generate_speech fails with the InvalidInput error (ValueError
"Text cannot be empty") before any engine call: the state is unchanged
(no engine handle acquired) and the trace is empty (no file created, no
engine touched). -/
theorem C2_empty_text_rejected (env : Env) (h : TTSHandler) (text : String)
    (hempty : pyStrip text = "") :
    TTSHandler.generate_speech env h text =
      (.error (.valueError "Text cannot be empty"), h, []) := by
  unfold TTSHandler.generate_speech
  rw [if_pos hempty]

theorem C2_witness :
    pyStrip " \t " = ""
    ∧ TTSHandler.generate_speech envOK hFresh " \t " =
        (.error (.valueError "Text cannot be empty"), hFresh, []) :=
  ⟨by decide, C2_empty_text_rejected envOK hFresh " \t " (by decide)⟩

/-- C10: for every tool call whose name is not read_aloud, the handler
raises ValueError ("Unknown tool: name") whatever the arguments are, with
no argument validation observable and nothing dispatched to the lifecycle
manager (state unchanged, empty trace). -/
theorem C10_unknown_tool (env : Env) (h : TTSHandler) (name : String)
    (arguments : Option (List (String × JVal))) (hne : name ≠ "read_aloud") :
    handle_call_tool env h name arguments = (.error ("Unknown tool: " ++ name), h, []) := by
  unfold handle_call_tool
  rw [if_pos hne]

theorem C10_witness :
    handle_call_tool envOK hFresh "foo" (some [("text", JVal.jstr "hi")]) =
      (.error "Unknown tool: foo", hFresh, []) :=
  C10_unknown_tool envOK hFresh "foo" (some [("text", JVal.jstr "hi")]) (by decide)

/-- C7: cleanup never throws (it is a total function into state and
trace), is idempotent (a second call is a no-op), swallows every teardown
error (the result does not depend on the teardown oracles at all), and
releases the engine handle and the audio-subsystem handle if present. -/
theorem C7_cleanup_contract (env env2 : Env) (h : TTSHandler) :
    (TTSHandler.cleanup env h).1.tts_engine = none
    ∧ (TTSHandler.cleanup env h).1.pygame_initialized = false
    ∧ TTSHandler.cleanup env2 (TTSHandler.cleanup env h).1 = ((TTSHandler.cleanup env h).1, [])
    ∧ TTSHandler.cleanup env h = TTSHandler.cleanup env2 h := by
  obtain ⟨od, te, pg⟩ := h
  rw [cleanup_eq env od te pg, cleanup_eq env2 od te pg]
  refine ⟨rfl, rfl, ?_, rfl⟩
  rw [cleanup_eq env2 od none false]
  rfl

/-- C9: the engine handle is lazily initialized at most once per handler:
a call with the handle already present returns that same handle and
changes nothing (no engine call at all), the first call stores the handle
returned by init, and the outcome never depends on the best-effort rate
configuration oracle (a rate failure is swallowed): any two environments
agreeing on the init oracle give identical results. -/
theorem C9_lazy_engine_handle (env env2 : Env) (h : TTSHandler) (e : Nat) :
    (h.tts_engine = some e → TTSHandler.get_tts_engine env h = (.ok e, h, []))
    ∧ (h.tts_engine = none → env.engineInitR = .ok e →
        TTSHandler.get_tts_engine env h =
          (.ok e, { h with tts_engine := some e }, [.engineInit, .setRate e]))
    ∧ (env2.engineInitR = env.engineInitR →
        TTSHandler.get_tts_engine env2 h = TTSHandler.get_tts_engine env h) := by
  refine ⟨get_tts_engine_some env h e, get_tts_engine_none_ok env h e, ?_⟩
  intro hsame
  cases hte : h.tts_engine with
  | some e0 => rw [get_tts_engine_some env h e0 hte, get_tts_engine_some env2 h e0 hte]
  | none =>
    cases hi : env.engineInitR with
    | error m =>
      rw [get_tts_engine_none_err env h m hte hi,
        get_tts_engine_none_err env2 h m hte (hsame.trans hi)]
    | ok e0 =>
      rw [get_tts_engine_none_ok env h e0 hte hi,
        get_tts_engine_none_ok env2 h e0 hte (hsame.trans hi)]

theorem C9_witness :
    TTSHandler.get_tts_engine envOK ⟨"audio_outputs", some 5, false⟩ =
      (.ok 5, ⟨"audio_outputs", some 5, false⟩, [])
    ∧ TTSHandler.get_tts_engine envOK hFresh =
      (.ok 1, ⟨"audio_outputs", some 1, false⟩, [.engineInit, .setRate 1]) :=
  ⟨(C9_lazy_engine_handle envOK envOK ⟨"audio_outputs", some 5, false⟩ 5).1 rfl,
   (C9_lazy_engine_handle envOK envOK hFresh 1).2.1 rfl rfl⟩

/-- C8 counterexample: the argument parser of `main` rejects both
`--http` and `--port` as unrecognized; no such flags are declared
(server.py lines 64-86), so there is no HTTP transport selection. -/
theorem C8_counterexample :
    parse_args ["--http"] argparseDefaults = .error "unrecognized arguments: --http"
    ∧ parse_args ["--port", "8000"] argparseDefaults =
        .error "unrecognized arguments: --port" :=
  ⟨rfl, rfl⟩

/-- C8 amended: the CLI accepts exactly the flags `--text <string>` and
`--no-play`; `--http` and `--port` are rejected as unrecognized arguments
(the server has no HTTP transport or port option). -/
theorem C8_cli_flags (s p : String) :
    parse_args ["--text", s] argparseDefaults = .ok ⟨some s, false⟩
    ∧ parse_args ["--no-play"] argparseDefaults = .ok ⟨none, true⟩
    ∧ parse_args ["--text", s, "--no-play"] argparseDefaults = .ok ⟨some s, true⟩
    ∧ parse_args ["--http"] argparseDefaults = .error "unrecognized arguments: --http"
    ∧ parse_args ["--port", p] argparseDefaults = .error "unrecognized arguments: --port" :=
  ⟨rfl, rfl, rfl, rfl, rfl⟩


/-- read_aloud when generation raises: the exception is caught and turned
into the failure string. -/
theorem read_aloud_eq_gen_err (env : Env) (h : TTSHandler) (text : String)
    (e : PyErr) (h1 : TTSHandler) (tr1 : List Event)
    (hg : TTSHandler.generate_speech env h text = (.error e, h1, tr1)) :
    TTSHandler.read_aloud env h text =
      ("Error processing text-to-speech: " ++ PyErr.msg e, h1, tr1) := by
  unfold TTSHandler.read_aloud
  simp only [hg]

/-- read_aloud when generation succeeds and playback raises. -/
theorem read_aloud_eq_play_err (env : Env) (h : TTSHandler) (text p : String)
    (h1 h2 : TTSHandler) (tr1 tr2 : List Event) (e : PyErr)
    (hg : TTSHandler.generate_speech env h text = (.ok p, h1, tr1))
    (hp : TTSHandler.play_audio_file env h1 p = (.error e, h2, tr2)) :
    TTSHandler.read_aloud env h text =
      ("Error processing text-to-speech: " ++ PyErr.msg e, h2, tr1 ++ tr2) := by
  unfold TTSHandler.read_aloud
  simp only [hg, hp]

/-- read_aloud when generation and playback both succeed. -/
theorem read_aloud_eq_ok (env : Env) (h : TTSHandler) (text p : String)
    (h1 h2 : TTSHandler) (tr1 tr2 : List Event) (u : Unit)
    (hg : TTSHandler.generate_speech env h text = (.ok p, h1, tr1))
    (hp : TTSHandler.play_audio_file env h1 p = (.ok u, h2, tr2)) :
    TTSHandler.read_aloud env h text =
      ("Successfully generated and played audio: " ++ pathName p, h2, tr1 ++ tr2) := by
  unfold TTSHandler.read_aloud
  simp only [hg, hp]

/-- C1: read_aloud always returns a string (the embedding is total, so no
exception escapes), and that string is exactly the success message naming
the artifact file when generation and playback both succeed, and exactly
the failure message carrying the original failure's str(e) otherwise
(invalid input, synthesis failure, missing file or playback failure). -/
theorem C1_read_aloud_result_shape (env : Env) (h : TTSHandler) (text : String) :
    (∃ e, (TTSHandler.generate_speech env h text).1 = .error e ∧
       (TTSHandler.read_aloud env h text).1 =
         "Error processing text-to-speech: " ++ PyErr.msg e)
    ∨ (∃ p h1 tr1, TTSHandler.generate_speech env h text = (.ok p, h1, tr1) ∧
        (((TTSHandler.play_audio_file env h1 p).1 = .ok () ∧
           (TTSHandler.read_aloud env h text).1 =
             "Successfully generated and played audio: " ++ pathName p)
         ∨ (∃ e, (TTSHandler.play_audio_file env h1 p).1 = .error e ∧
             (TTSHandler.read_aloud env h text).1 =
               "Error processing text-to-speech: " ++ PyErr.msg e))) := by
  obtain ⟨rg, h1, tr1, hg⟩ :
      ∃ rg h1 tr1, TTSHandler.generate_speech env h text = (rg, h1, tr1) :=
    ⟨_, _, _, rfl⟩
  cases rg with
  | error e =>
    left
    exact ⟨e, by rw [hg], by rw [read_aloud_eq_gen_err env h text e h1 tr1 hg]⟩
  | ok p =>
    right
    refine ⟨p, h1, tr1, hg, ?_⟩
    obtain ⟨rp, h2, tr2, hp⟩ :
        ∃ rp h2 tr2, TTSHandler.play_audio_file env h1 p = (rp, h2, tr2) :=
      ⟨_, _, _, rfl⟩
    cases rp with
    | ok u =>
      left
      exact ⟨by rw [hp], by rw [read_aloud_eq_ok env h text p h1 h2 tr1 tr2 u hg hp]⟩
    | error e =>
      right
      exact ⟨e, by rw [hp], by rw [read_aloud_eq_play_err env h text p h1 h2 tr1 tr2 e hg hp]⟩

/-- The first failing step, if any, of the try block of play_audio_file:
the mixer initialization failure (only consulted when the mixer is not
yet up), else the sound load failure, else the play failure. -/
def firstLoadPlayError (env : Env) (p : String) : Option String :=
  match env.soundLoadR p with
  | .error m => some m
  | .ok _ =>
    match env.soundPlayR p with
    | .error m => some m
    | .ok _ => none

def firstPlaybackError (env : Env) (h : TTSHandler) (p : String) : Option String :=
  match h.pygame_initialized with
  | false =>
    match env.mixerInitR with
    | .error m => some m
    | .ok _ => firstLoadPlayError env p
  | true => firstLoadPlayError env p

theorem playTryBody_err (env : Env) (h : TTSHandler) (p : String) (tr : List Event)
    (m : String) (hm : firstLoadPlayError env p = some m) :
    (playTryBody env h p tr).1 = .error (.runtimeError ("Failed to play audio: " ++ m)) := by
  unfold firstLoadPlayError at hm
  unfold playTryBody
  cases hl : env.soundLoadR p with
  | error m2 =>
    rw [hl] at hm
    simp only [Option.some.injEq] at hm
    subst hm
    rfl
  | ok u =>
    rw [hl] at hm
    cases hp2 : env.soundPlayR p with
    | error m2 =>
      rw [hp2] at hm
      simp only [Option.some.injEq] at hm
      subst hm
      rfl
    | ok u2 =>
      rw [hp2] at hm
      cases hm

/-- C5: play_audio_file on a non-existent path fails with NotFound
(FileNotFoundError naming the path) with no playback at all (state
unchanged, empty trace: the mixer, sound and play calls never happen);
and on an existing path, if the try block's first failing step raises
message m (mixer start, sound load, or playback), it fails with
PlaybackFailure (RuntimeError) wrapping that message. -/
theorem C5_play_audio_file_failures (env : Env) (h : TTSHandler) (p : String) :
    (env.fileExists p = false →
      TTSHandler.play_audio_file env h p =
        (.error (.fileNotFoundError ("Audio file not found: " ++ p)), h, []))
    ∧ (env.fileExists p = true → ∀ m, firstPlaybackError env h p = some m →
        (TTSHandler.play_audio_file env h p).1 =
          .error (.runtimeError ("Failed to play audio: " ++ m))) := by
  constructor
  · intro hfe
    unfold TTSHandler.play_audio_file
    rw [if_pos hfe]
  · intro hfe m hm
    obtain ⟨od, te, pg⟩ := h
    unfold TTSHandler.play_audio_file
    rw [if_neg (by rw [hfe]; exact fun hcon => Bool.noConfusion hcon)]
    unfold firstPlaybackError at hm
    dsimp only at hm ⊢
    cases pg with
    | false =>
      rw [if_pos rfl]
      cases hmi : env.mixerInitR with
      | error m2 =>
        dsimp only at hm
        rw [hmi] at hm
        dsimp only at hm
        simp only [Option.some.injEq] at hm
        subst hm
        rfl
      | ok u =>
        dsimp only at hm
        rw [hmi] at hm
        dsimp only at hm
        exact playTryBody_err env _ p _ m hm
    | true =>
      rw [if_neg (fun hcon => Bool.noConfusion hcon)]
      exact playTryBody_err env _ p _ m hm

/-- Concrete environments exercising both failure modes of C5. -/
def envNoFile : Env := { envOK with fileExists := fun _ => false }

def envPlayFail : Env := { envOK with soundPlayR := fun _ => .error "device lost" }

theorem C5_witness :
    TTSHandler.play_audio_file envNoFile hFresh "missing.wav" =
      (.error (.fileNotFoundError "Audio file not found: missing.wav"), hFresh, [])
    ∧ (TTSHandler.play_audio_file envPlayFail hFresh "x.wav").1 =
      .error (.runtimeError "Failed to play audio: device lost") :=
  ⟨(C5_play_audio_file_failures envNoFile hFresh "missing.wav").1 rfl,
   (C5_play_audio_file_failures envPlayFail hFresh "x.wav").2 rfl "device lost" rfl⟩

/-- C4: a read_aloud tool invocation whose arguments are absent, lack the
required field text, or carry a non-string text value is rejected with the
corresponding InvalidArgument error (a ValueError at the boundary) with
the state unchanged and an empty trace: the lifecycle manager's read_aloud
is never dispatched, so the worker offload is not reached. -/
theorem C4_invalid_arguments_rejected (env : Env) (h : TTSHandler)
    (arguments : Option (List (String × JVal))) :
    (arguments = none →
      handle_call_tool env h "read_aloud" arguments =
        (.error "Missing required argument: text", h, []))
    ∧ (∀ args, arguments = some args → args.lookup "text" = none →
        handle_call_tool env h "read_aloud" arguments =
          (.error "Missing required argument: text", h, []))
    ∧ (∀ args v, arguments = some args → args.lookup "text" = some v →
        (∀ s, v ≠ JVal.jstr s) →
        handle_call_tool env h "read_aloud" arguments =
          (.error "Argument \x27text\x27 must be a string", h, [])) := by
  refine ⟨?_, ?_, ?_⟩
  · rintro rfl
    rfl
  · rintro args rfl hlk
    unfold handle_call_tool
    rw [if_neg (by simp)]
    dsimp only
    by_cases hemp : args.isEmpty
    · rw [if_pos hemp]
    · rw [if_neg hemp, hlk]
  · rintro args v rfl hlk hns
    unfold handle_call_tool
    rw [if_neg (by simp)]
    have hemp : ¬(args.isEmpty = true) := by
      intro hcon
      rw [List.isEmpty_iff] at hcon
      rw [hcon] at hlk
      cases hlk
    dsimp only
    rw [if_neg hemp, hlk]
    cases v with
    | jstr s => exact absurd rfl (hns s)
    | jnum n => rfl
    | jbool b => rfl
    | jnull => rfl

theorem C4_witness :
    handle_call_tool envOK hFresh "read_aloud" (some [("text", JVal.jnum 3)]) =
      (.error "Argument \x27text\x27 must be a string", hFresh, [])
    ∧ handle_call_tool envOK hFresh "read_aloud" (some []) =
      (.error "Missing required argument: text", hFresh, []) :=
  ⟨(C4_invalid_arguments_rejected envOK hFresh (some [("text", JVal.jnum 3)])).2.2
      [("text", JVal.jnum 3)] (JVal.jnum 3) rfl rfl (by simp),
   (C4_invalid_arguments_rejected envOK hFresh (some [])).2.1 [] rfl rfl⟩

/-- C6: whenever generate_speech returns a path, that path is the
configured output directory joined with the fresh timestamped filename,
and that filename is exactly the current wall-clock instant rendered at
millisecond resolution in the YYYY-MM-DD_HH-MM-SS-mmm shape followed by
the .wav extension; the default constructor uses the output directory
audio_outputs and creates it at construction. -/
theorem C6_generate_speech_timestamped_path (env : Env) (h : TTSHandler) (text p : String)
    (hok : (TTSHandler.generate_speech env h text).1 = .ok p) :
    p = h.output_dir ++ "/" ++ generate_timestamp_filename env.now
    ∧ generate_timestamp_filename env.now =
        String.mk (timestampPatternChars env.now) ++ ".wav"
    ∧ TTSHandler.create =
        (⟨"audio_outputs", none, false⟩, [Event.mkdirOutput "audio_outputs"]) := by
  refine ⟨?_, generate_timestamp_filename_pattern env.now, rfl⟩
  unfold TTSHandler.generate_speech at hok
  by_cases he : pyStrip text = ""
  · rw [if_pos he] at hok
    cases hok
  · rw [if_neg he] at hok
    obtain ⟨rg, h1, tr1, hg⟩ :
        ∃ rg h1 tr1, TTSHandler.get_tts_engine env h = (rg, h1, tr1) :=
      ⟨_, _, _, rfl⟩
    have hod : h1.output_dir = h.output_dir := by
      have hpr := get_tts_engine_output_dir env h
      rw [hg] at hpr
      exact hpr
    rw [hg] at hok
    cases rg with
    | error e => cases hok
    | ok eng =>
      dsimp only at hok
      cases hs : env.saveToFileR eng text
          (h1.output_dir ++ "/" ++ generate_timestamp_filename env.now) with
      | error m =>
        rw [hs] at hok
        cases hok
      | ok u =>
        rw [hs] at hok
        dsimp only at hok
        cases hw : env.runAndWaitR eng with
        | error m =>
          rw [hw] at hok
          cases hok
        | ok u2 =>
          rw [hw] at hok
          dsimp only at hok
          rw [← hod]
          exact (Except.ok.inj hok).symm

theorem C6_witness :
    ("audio_outputs/2026-10-12_13-45-07-123.wav" : String) =
      hFresh.output_dir ++ "/" ++ generate_timestamp_filename envOK.now
    ∧ generate_timestamp_filename envOK.now =
        String.mk (timestampPatternChars envOK.now) ++ ".wav"
    ∧ TTSHandler.create =
        (⟨"audio_outputs", none, false⟩, [Event.mkdirOutput "audio_outputs"]) :=
  C6_generate_speech_timestamped_path envOK hFresh "hello"
    "audio_outputs/2026-10-12_13-45-07-123.wav" (by rfl)

/-- An environment whose synthesis engine fails to initialize. -/
def envFailSynth : Env := { envOK with engineInitR := .error "synthesis exploded" }

/-- C3 counterexample: a one-shot invocation with play enabled whose
synthesis fails exits with status 0 and prints the failure on the
check-marked success line, because read_aloud converts the failure into a
result string instead of raising; the claimed non-zero exit does not
happen. -/
theorem C3_counterexample :
    (run_oneshot envFailSynth "hello" true).1 =
      ⟨["Converting text to speech: hello",
        "✓ Error processing text-to-speech: synthesis exploded"], 0⟩ := by
  rfl

/-- C3 amended: a one-shot invocation with play enabled always exits 0,
whatever happens inside read_aloud (its failures are reported only in the
printed result line); in no-play mode a generate_speech success prints
the saved filename and exits 0, and a generate_speech failure prints an
error-marked line carrying the failure's message and exits with status
1. -/
theorem C3_oneshot_exit_codes (env : Env) (text : String) :
    (run_oneshot env text true).1.exitCode = 0
    ∧ (∀ p h1 tr, TTSHandler.generate_speech env hFresh text = (.ok p, h1, tr) →
        (run_oneshot env text false).1 =
          ⟨[convLine text, "✓ Audio saved to: " ++ pathName p], 0⟩)
    ∧ (∀ e h1 tr, TTSHandler.generate_speech env hFresh text = (.error e, h1, tr) →
        (run_oneshot env text false).1 =
          ⟨[convLine text, "✗ Error: " ++ PyErr.msg e], 1⟩) := by
  have hc : TTSHandler.createWith "audio_outputs" = (hFresh, [Event.mkdirOutput "audio_outputs"]) :=
    rfl
  refine ⟨?_, ?_, ?_⟩
  · unfold run_oneshot
    rw [hc]
    dsimp only
    obtain ⟨r, h1, tr, hr⟩ :
        ∃ r h1 tr, TTSHandler.read_aloud env hFresh text = (r, h1, tr) := ⟨_, _, _, rfl⟩
    rw [hr]
    obtain ⟨h2, tr2, hcl⟩ :
        ∃ h2 tr2, TTSHandler.cleanup env h1 = (h2, tr2) := ⟨_, _, rfl⟩
    rw [hcl]
    rfl
  · intro p h1 tr hg
    unfold run_oneshot
    rw [hc]
    dsimp only
    rw [hg]
    rfl
  · intro e h1 tr hg
    unfold run_oneshot
    rw [hc]
    dsimp only
    rw [hg]
    rfl

theorem C3_witness :
    (run_oneshot envOK "hi" true).1.exitCode = 0
    ∧ (run_oneshot envOK "hi" false).1 =
        ⟨[convLine "hi", "✓ Audio saved to: " ++ pathName "audio_outputs/2026-10-12_13-45-07-123.wav"], 0⟩
    ∧ (run_oneshot envOK "" false).1 = ⟨[convLine "", "✗ Error: Text cannot be empty"], 1⟩ :=
  ⟨(C3_oneshot_exit_codes envOK "hi").1,
   (C3_oneshot_exit_codes envOK "hi").2.1 "audio_outputs/2026-10-12_13-45-07-123.wav"
     ⟨"audio_outputs", some 1, false⟩
     [.engineInit, .setRate 1,
      .saveToFile 1 "hi" "audio_outputs/2026-10-12_13-45-07-123.wav", .runAndWait 1]
     (by rfl),
   (C3_oneshot_exit_codes envOK "").2.2 (.valueError "Text cannot be empty") hFresh []
     (by rfl)⟩
